import Mathlib

/-!
Shallow embedding of the word-velocity aggregation pipeline of `src/app.py`
(HackerNews front-page word-frequency collector, Flask + psycopg2 + TextBlob).

Conventions of the embedding:
* Python strings are Lean `String` (a list of characters); `str.lower` is
  modelled at the ASCII level by `pyLower`, which is exactly the mapping the
  CPython implementation performs on ASCII letters.
* The TextBlob word tokenizer is modelled by `tokenize`, which splits the text
  into maximal runs of alphanumeric characters.  The downstream filter keeps
  only purely alphabetic tokens, so the exact treatment of punctuation by the
  library tokenizer is irrelevant to the properties proved here; what matters,
  and what `tokenize` shares with the library tokenizer, is that every
  character of every produced token is a character of the input text.
* `collections.Counter` iterates in insertion order (first occurrence) and
  `Counter.most_common(n)` is documented as `sorted(items, key=count,
  reverse=True)[:n]` with a stable sort.  A stable sort by a fixed key is
  unique as a function, so it is modelled by insertion sort over the
  first-occurrence item list.
* The relational store is a pair of append-only tables plus the id sequence.
  psycopg2 opens an implicit transaction; rows become visible only at
  `conn.commit()`.  `collect` therefore returns the unchanged store on every
  exception path (the transaction is never committed there).
* Exceptions are modelled by the structured error result that the
  `except Exception` handler of `collect` turns them into.
-/

/-- Characters CPython lowercases in the ASCII range: this is the mapping of
`str.lower` restricted to ASCII, applied characterwise (line 39 of app.py
lowercases the joined title text). -/
def pyLower (c : Char) : Char :=
  if 65 ≤ c.toNat ∧ c.toNat ≤ 90 then Char.ofNat (c.toNat + 32) else c

/-- Characterwise lowering of a string, the model of Python str.lower. -/
def lowerString (s : String) : String :=
  String.mk (s.data.map pyLower)

/-- Word characters for the tokenizer model: letters and digits. -/
def isWordChar (c : Char) : Bool :=
  c.isAlphanum

/-- Accumulator-based splitting of a character list into maximal runs of word
characters; the accumulator holds the current run reversed. -/
def tokenizeAux : List Char → List Char → List String
  | [], acc => if acc.isEmpty then [] else [String.mk acc.reverse]
  | c :: cs, acc =>
    if isWordChar c then tokenizeAux cs (c :: acc)
    else if acc.isEmpty then tokenizeAux cs []
    else String.mk acc.reverse :: tokenizeAux cs []

/-- Model of the TextBlob word tokenizer (`blob.words` on line 42 of app.py):
split the text into maximal alphanumeric runs. -/
def tokenize (s : String) : List String :=
  tokenizeAux s.data []

/-- STOPWORDS of app.py line 19, verbatim. -/
def STOPWORDS : List String :=
  [ "the", "to", "of", "and", "a", "in", "is", "for", "on", "with", "it",
    "this", "that", "are", "be", "at", "as", "from", "or", "by", "an", "we",
    "show", "hn", "ask", "new", "how", "why", "what", "who", "your", "my",
    "i", "you" ]

/-- Filter of app.py line 42: keep w iff `w.isalpha() and len(w) > 2 and w not
in STOPWORDS`.  Python isalpha demands a nonempty all-alphabetic string; the
length test subsumes nonemptiness. -/
def keepWord (w : String) : Bool :=
  w.data.all Char.isAlpha && decide (2 < w.length) && !(STOPWORDS.contains w)

/-- Pipeline of app.py lines 38-42 on the list of titles: join with single
spaces, lowercase, tokenize, filter. -/
def filteredWords (titles : List String) : List String :=
  (tokenize (lowerString (String.intercalate " " titles))).filter keepWord

/-- Number of occurrences of w in the token list (the count Counter assigns). -/
def countOcc (ws : List String) (w : String) : Nat :=
  (ws.filter (fun x => x == w)).length

/-- First-occurrence deduplication helper; seen holds words already emitted. -/
def dedupFirstAux : List String → List String → List String
  | [], _ => []
  | w :: ws, seen =>
    if seen.contains w then dedupFirstAux ws seen
    else w :: dedupFirstAux ws (w :: seen)

/-- Distinct words in order of first occurrence: the iteration order of a
CPython Counter built from the token list. -/
def dedupFirst (ws : List String) : List String :=
  dedupFirstAux ws []

/-- Items of `Counter(words)` in iteration order: each distinct word paired
with its occurrence count (app.py line 43). -/
def counterItems (ws : List String) : List (String × Nat) :=
  (dedupFirst ws).map (fun w => (w, countOcc ws w))

/-- Descending-count comparison used by `Counter.most_common`: a precedes b
when the count of a is at least the count of b. -/
def countsGE (a b : String × Nat) : Prop :=
  b.2 ≤ a.2

instance : DecidableRel countsGE :=
  fun a b => Nat.decLe b.2 a.2

instance : IsTotal (String × Nat) countsGE :=
  ⟨fun a b => Nat.le_total b.2 a.2⟩

instance : IsTrans (String × Nat) countsGE :=
  ⟨fun _ _ _ hab hbc => Nat.le_trans hbc hab⟩

/-- Stable descending sort by count.  `Counter.most_common` is documented as a
stable sort by count descending; a stable sort for a fixed key is unique as a
function, so insertion sort is an exact model. -/
def sortByCountDesc (items : List (String × Nat)) : List (String × Nat) :=
  items.insertionSort countsGE

/-- Model of `Counter(words).most_common(n)` (app.py lines 58 and 69). -/
def mostCommon (ws : List String) (n : Nat) : List (String × Nat) :=
  (sortByCountDesc (counterItems ws)).take n

/-- One element of the hits array of the Algolia JSON response; the code only
reads the title field, with default empty string (app.py line 38). -/
structure Hit where
  title : Option String
deriving DecidableEq

/-- Parsed JSON body of the fetch response; `data.get('hits', [])` yields an
empty list when the key is absent, so an absent key is identified with an
empty list (app.py line 35). -/
structure JsonData where
  hits : List Hit
deriving DecidableEq

/-- Row of the snapshots table: id (RETURNING id on line 54), source and the
stored raw payload `hits[:5]` (line 52).  The observed timestamp column is
assigned by the database and not read back by the code, so it is omitted. -/
structure SnapshotRow where
  id : Nat
  source : String
  raw_data : List Hit
deriving DecidableEq

/-- Row of the word_velocity table (insert on line 63); observed_at is the
column the dashboard window filters on, assigned at write time. -/
structure WordRow where
  word : String
  count : Nat
  snapshot_id : Nat
  observed_at : Int
deriving DecidableEq

/-- Committed state of the relational store: the two append-only tables plus
the id sequence backing snapshots.id. -/
structure Store where
  snapshots : List SnapshotRow
  word_velocity : List WordRow
  nextId : Nat
deriving DecidableEq

/-- Failure injection for the storage collaborator: which database call of the
collect run raises, if any. -/
inductive DbFail where
  | healthy
  | atConnect
  | atSnapshotInsert
  | atWordInsert
  | atCommit
deriving DecidableEq

/-- Outcome of `requests.get(HN_API_URL)` followed by `response.json()`:
either the request raises, or a response arrives with some HTTP status whose
body either fails to parse as JSON (none) or parses to data. -/
inductive FetchOutcome where
  | netError
  | response (status : Nat) (body : Option JsonData)
deriving DecidableEq

/-- Environment of one collect invocation: the fetch outcome, the injected
storage failure, and the write-time timestamp the database assigns to the
observed_at column. -/
structure CollectInput where
  fetch : FetchOutcome
  dbFail : DbFail
  now : Int
deriving DecidableEq

/-- Value of `collect()` as seen by the caller: the success JSON of line 69 or
the error JSON of line 72. -/
inductive CollectResult where
  | success (snapshot_id : Nat) (top_words : List (String × Nat))
  | error (message : String)
deriving DecidableEq

/-- True on the error constructor. -/
def CollectResult.isError : CollectResult → Bool
  | .success _ _ => false
  | .error _ => true

def msgConnectionError : String := "requests.exceptions.ConnectionError"

def msgJsonDecodeError : String := "json.decoder.JSONDecodeError"

def msgOperationalError : String := "psycopg2.OperationalError: could not connect"

def msgSnapshotInsertError : String := "psycopg2.DatabaseError: snapshot insert rejected"

def msgEmptyValuesSyntaxError : String := "psycopg2.errors.SyntaxError: syntax error at end of input"

def msgWordInsertError : String := "psycopg2.DatabaseError: word_velocity insert rejected"

def msgCommitError : String := "psycopg2.DatabaseError: commit rejected"

/-- Title strings extracted from the hits array (app.py line 38). -/
def hitTitles (hits : List Hit) : List String :=
  hits.map (fun h => h.title.getD "")

/-- The collect endpoint, app.py lines 26-72.  The whole body runs under the
catch-all except handler, so the function is total and every raise becomes an
error result.  psycopg2 runs both inserts inside one implicit transaction that
only `conn.commit()` (line 65) makes visible, so every pre-commit raise leaves
the committed store unchanged.  Note that the HTTP status code is never
inspected, and that with an empty word list line 63 executes
`INSERT INTO word_velocity (word, count, snapshot_id) VALUES ` with an empty
values section, which the database rejects as a syntax error. -/
def collect (st : Store) (inp : CollectInput) : CollectResult × Store :=
  match inp.fetch with
  | .netError => (.error msgConnectionError, st)
  | .response _status body =>
    match body with
    | none => (.error msgJsonDecodeError, st)
    | some data =>
      let hits := data.hits
      let words := filteredWords (hitTitles hits)
      if inp.dbFail = DbFail.atConnect then (.error msgOperationalError, st)
      else if inp.dbFail = DbFail.atSnapshotInsert then (.error msgSnapshotInsertError, st)
      else
        let snapshot_id := st.nextId
        let pendingSnapshot : SnapshotRow := ⟨snapshot_id, "HackerNews", hits.take 5⟩
        let args_list := (mostCommon words 50).map (fun wc => (wc.1, wc.2, snapshot_id))
        if args_list.isEmpty then (.error msgEmptyValuesSyntaxError, st)
        else if inp.dbFail = DbFail.atWordInsert then (.error msgWordInsertError, st)
        else if inp.dbFail = DbFail.atCommit then (.error msgCommitError, st)
        else
          (.success snapshot_id (mostCommon words 5),
            { snapshots := st.snapshots ++ [pendingSnapshot],
              word_velocity :=
                st.word_velocity ++ args_list.map (fun a => ⟨a.1, a.2.1, a.2.2, inp.now⟩),
              nextId := st.nextId + 1 })

/-- Row predicate of the dashboard SQL (app.py line 86): observed_at strictly
greater than NOW() minus the window. -/
def inWindow (now window : Int) (r : WordRow) : Bool :=
  decide (now - window < r.observed_at)

/-- Rows passing the WHERE clause of the dashboard query. -/
def windowRows (rows : List WordRow) (now window : Int) : List WordRow :=
  rows.filter (inWindow now window)

/-- SUM(count) over the given rows for one word (the GROUP BY aggregate). -/
def windowTotal (rows : List WordRow) (w : String) : Nat :=
  ((rows.filter (fun r => r.word == w)).map WordRow.count).sum

/-- Distinct words of the in-window rows, in first-occurrence order. -/
def windowWords (rows : List WordRow) (now window : Int) : List String :=
  dedupFirst ((windowRows rows now window).map WordRow.word)

/-- The dashboard SQL of app.py lines 83-90: filter rows to the window, group
by word, sum counts, order by total descending, limit. -/
def topWords (rows : List WordRow) (now window : Int) (limit : Nat) : List (String × Nat) :=
  let recent := windowRows rows now window
  let totals := (windowWords rows now window).map (fun w => (w, windowTotal recent w))
  (sortByCountDesc totals).take limit

/-- Modelled from the spec: the spec described the trend query window as the
half-open interval from now minus the window up to but excluding now, which is
not what the SQL of line 86 computes; this definition follows the words of the
spec for comparison. -/
def inWindowSpecHalfOpen (now window : Int) (r : WordRow) : Bool :=
  decide (now - window ≤ r.observed_at) && decide (r.observed_at < now)

/-- Modelled from the spec: the trend query with the half-open window of the
spec text, all later stages as in the code. -/
def topWordsSpecHalfOpen (rows : List WordRow) (now window : Int) (limit : Nat) :
    List (String × Nat) :=
  let recent := rows.filter (inWindowSpecHalfOpen now window)
  let totals := (dedupFirst (recent.map WordRow.word)).map (fun w => (w, windowTotal recent w))
  (sortByCountDesc totals).take limit

/-- The dashboard endpoint query, app.py lines 83-90: window of 24 hours
(in seconds, as the timestamps are modelled in seconds) and limit 10. -/
def dashboardQuery (st : Store) (now : Int) : List (String × Nat) :=
  topWords st.word_velocity now 86400 10

/-! ### Character-level helper lemmas -/

theorem charToNat_ofNat_valid (n : Nat) (h : n.isValidChar) : (Char.ofNat n).toNat = n := by
  rw [Char.ofNat, dif_pos h]
  simp [Char.ofNatAux, Char.toNat, UInt32.toNat]

theorem charIsUpper_iff (c : Char) : c.isUpper = true ↔ 65 ≤ c.toNat ∧ c.toNat ≤ 90 := by
  simp [Char.isUpper, UInt32.le_def, BitVec.le_def, Char.toNat, UInt32.toNat]

theorem pyLower_not_upper (c : Char) : (pyLower c).isUpper = false := by
  unfold pyLower
  split
  next h =>
    have hv : Nat.isValidChar (c.toNat + 32) := Or.inl (by omega)
    have ht := charToNat_ofNat_valid (c.toNat + 32) hv
    rw [Bool.eq_false_iff]
    intro hu
    rw [charIsUpper_iff, ht] at hu
    omega
  next h =>
    rw [Bool.eq_false_iff]
    intro hu
    rw [charIsUpper_iff] at hu
    exact h hu

theorem pyLower_alpha_lower (c : Char) :
    (pyLower c).isAlpha = true → (pyLower c).isLower = true := by
  intro h
  rw [Char.isAlpha, Bool.or_eq_true, pyLower_not_upper] at h
  simpa using h

/-! ### Tokenizer helper lemmas -/

theorem tokenizeAux_chars (cs : List Char) :
    ∀ acc w, w ∈ tokenizeAux cs acc → ∀ c, c ∈ w.data → c ∈ cs ∨ c ∈ acc := by
  induction cs with
  | nil =>
    intro acc w hw c hc
    unfold tokenizeAux at hw
    split at hw
    · simp at hw
    · simp only [List.mem_singleton] at hw
      subst hw
      right
      simpa using hc
  | cons x xs ih =>
    intro acc w hw c hc
    unfold tokenizeAux at hw
    split at hw
    · rcases ih (x :: acc) w hw c hc with h | h
      · exact Or.inl (List.mem_cons_of_mem _ h)
      · rcases List.mem_cons.mp h with rfl | h
        · exact Or.inl (List.mem_cons_self _ _)
        · exact Or.inr h
    · split at hw
      · rcases ih [] w hw c hc with h | h
        · exact Or.inl (List.mem_cons_of_mem _ h)
        · simp at h
      · rcases List.mem_cons.mp hw with rfl | hw
        · right
          simpa using hc
        · rcases ih [] w hw c hc with h | h
          · exact Or.inl (List.mem_cons_of_mem _ h)
          · simp at h

theorem filteredWords_mem_split (titles : List String) (w : String)
    (hw : w ∈ filteredWords titles) :
    keepWord w = true ∧ ∀ c, c ∈ w.data → ∃ c0, c = pyLower c0 := by
  unfold filteredWords at hw
  have h := List.mem_filter.mp hw
  refine ⟨h.2, ?_⟩
  intro c hc
  have hmem := tokenizeAux_chars _ [] w h.1 c hc
  rcases hmem with hmem | hmem
  · have : c ∈ (String.intercalate " " titles).data.map pyLower := hmem
    obtain ⟨c0, _, rfl⟩ := List.mem_map.mp this
    exact ⟨c0, rfl⟩
  · simp at hmem

/-! ### Claim theorems about the tokenizer and counter -/

/-- C2: every token produced by the tokenizer and filter stage consists solely
of lowercase alphabetic characters, has length strictly greater than 2, and is
not a member of the stopword set. -/
theorem filteredWords_tokens_clean (titles : List String) (w : String)
    (hw : w ∈ filteredWords titles) :
    w.data.all Char.isAlpha = true ∧ w.data.all Char.isLower = true ∧
    2 < w.length ∧ STOPWORDS.contains w = false := by
  obtain ⟨hk, hchars⟩ := filteredWords_mem_split titles w hw
  unfold keepWord at hk
  rw [Bool.and_eq_true, Bool.and_eq_true] at hk
  obtain ⟨⟨halpha, hlen⟩, hstop⟩ := hk
  refine ⟨halpha, ?_, of_decide_eq_true hlen, by simpa using hstop⟩
  rw [List.all_eq_true] at halpha ⊢
  intro c hc
  obtain ⟨c0, rfl⟩ := hchars c hc
  exact pyLower_alpha_lower c0 (halpha _ hc)

/-- Witness for C2: the token rust survives the filter on a concrete title
list and has all the claimed properties. -/
theorem filteredWords_tokens_clean_witness :
    ( "rust" ∈ filteredWords [ "Show HN: Rust 1.0" ]) ∧
    ( "rust".data.all Char.isAlpha = true ∧ "rust".data.all Char.isLower = true ∧
      2 < "rust".length ∧ STOPWORDS.contains "rust" = false) :=
  ⟨by decide, filteredWords_tokens_clean [ "Show HN: Rust 1.0" ] "rust" (by decide)⟩

/-! ### Helper lemmas about deduplication and the descending sort -/

theorem dedupFirstAux_not_seen (ws : List String) :
    ∀ seen w, w ∈ dedupFirstAux ws seen → seen.contains w = false := by
  induction ws with
  | nil =>
    intro seen w hw
    simp [dedupFirstAux] at hw
  | cons x xs ih =>
    intro seen w hw
    unfold dedupFirstAux at hw
    split at hw
    · exact ih seen w hw
    · next h =>
      rcases List.mem_cons.mp hw with rfl | hw
      · exact Bool.eq_false_iff.mpr h
      · have hx := ih (x :: seen) w hw
        rw [List.contains_cons, Bool.or_eq_false_iff] at hx
        exact hx.2

theorem nodup_dedupFirstAux (ws : List String) :
    ∀ seen, (dedupFirstAux ws seen).Nodup := by
  induction ws with
  | nil =>
    intro seen
    simp [dedupFirstAux]
  | cons x xs ih =>
    intro seen
    unfold dedupFirstAux
    split
    · exact ih seen
    · rw [List.nodup_cons]
      refine ⟨?_, ih (x :: seen)⟩
      intro hx
      have hc := dedupFirstAux_not_seen xs (x :: seen) x hx
      simp at hc

theorem nodup_dedupFirst (ws : List String) : (dedupFirst ws).Nodup :=
  nodup_dedupFirstAux ws []

theorem sorted_sortByCountDesc (items : List (String × Nat)) :
    List.Sorted countsGE (sortByCountDesc items) :=
  List.sorted_insertionSort countsGE items

theorem sorted_take {l : List (String × Nat)} (h : List.Sorted countsGE l) (n : Nat) :
    List.Sorted countsGE (l.take n) :=
  List.Pairwise.sublist (List.take_sublist n l) h

theorem length_sortByCountDesc (items : List (String × Nat)) :
    (sortByCountDesc items).length = items.length :=
  List.length_insertionSort countsGE items

/-- C3: for every token list and every N, the top-N selection of the frequency
counter is sorted in descending order of count and its length is exactly the
minimum of N and the number of distinct words (hence at most that minimum). -/
theorem mostCommon_sorted_and_bounded (ws : List String) (n : Nat) :
    List.Sorted countsGE (mostCommon ws n) ∧
    (mostCommon ws n).length = min n (dedupFirst ws).length := by
  constructor
  · exact sorted_take (sorted_sortByCountDesc (counterItems ws)) n
  · rw [mostCommon, List.length_take, length_sortByCountDesc, counterItems, List.length_map]

/-- C10: the top-5 summary returned by collect is literally the first five
entries of the top-50 list persisted to the store. -/
theorem mostCommon_five_take_of_fifty (ws : List String) :
    mostCommon ws 5 = (mostCommon ws 50).take 5 := by
  unfold mostCommon
  rw [List.take_take]
  norm_num

/-! ### Claim theorems about collect -/

/-- Case analysis of collect: either some step raises and the run ends in an
error result with the committed store unchanged, or the fetch produced parsed
JSON, storage is healthy, and the run commits the pending snapshot and word
rows and returns the success result. -/
theorem collect_cases (st : Store) (inp : CollectInput) :
    (∃ m, collect st inp = (CollectResult.error m, st)) ∨
    (∃ status data,
      inp.fetch = FetchOutcome.response status (some data) ∧
      inp.dbFail = DbFail.healthy ∧
      collect st inp =
        (CollectResult.success st.nextId (mostCommon (filteredWords (hitTitles data.hits)) 5),
         { snapshots := st.snapshots ++ [⟨st.nextId, "HackerNews", data.hits.take 5⟩],
           word_velocity := st.word_velocity ++
             ((mostCommon (filteredWords (hitTitles data.hits)) 50).map
                 (fun wc => (wc.1, wc.2, st.nextId))).map
               (fun a => ⟨a.1, a.2.1, a.2.2, inp.now⟩),
           nextId := st.nextId + 1 })) := by
  obtain ⟨f, dbf, now⟩ := inp
  cases f with
  | netError => exact Or.inl ⟨_, rfl⟩
  | response status body =>
    cases body with
    | none => exact Or.inl ⟨_, rfl⟩
    | some data =>
      simp only [collect]
      split
      · exact Or.inl ⟨_, rfl⟩
      · split
        · exact Or.inl ⟨_, rfl⟩
        · split
          · exact Or.inl ⟨_, rfl⟩
          · split
            · exact Or.inl ⟨_, rfl⟩
            · split
              · exact Or.inl ⟨_, rfl⟩
              · rename_i h1 h2 h3 h4 h5
                refine Or.inr ⟨status, data, rfl, ?_, rfl⟩
                cases dbf with
                | healthy => rfl
                | atConnect => exact absurd rfl h1
                | atSnapshotInsert => exact absurd rfl h2
                | atWordInsert => exact absurd rfl h4
                | atCommit => exact absurd rfl h5

/-- C1: when the storage collaborator rejects the word-count insert, the run
that already executed the snapshot insert ends in an error result and the
committed store is exactly the store before the run: neither the snapshot row
nor any word-count row is visible, because the implicit psycopg2 transaction
is never committed. -/
theorem collect_word_insert_failure_atomic (st : Store) (f : FetchOutcome) (now : Int) :
    (collect st ⟨f, DbFail.atWordInsert, now⟩).2 = st ∧
    (collect st ⟨f, DbFail.atWordInsert, now⟩).1.isError = true := by
  rcases collect_cases st ⟨f, DbFail.atWordInsert, now⟩ with ⟨m, hm⟩ | ⟨_, _, _, hdb, _⟩
  · rw [hm]
    exact ⟨rfl, rfl⟩
  · exact absurd hdb (by simp)

/-- C4 counterexample: the code never inspects the HTTP status code, so a 500
response whose body is well-formed JSON with a hits array is processed like a
success; collect returns a success result and a snapshot row is committed,
contradicting the claim that a 500 yields an error and no snapshot row. -/
theorem collect_500_with_json_body_succeeds :
    (collect ⟨[], [], 1⟩
        ⟨FetchOutcome.response 500 (some ⟨[ ⟨some "Rust rocks"⟩ ]⟩), DbFail.healthy, 7⟩).1
      = CollectResult.success 1 [ ( "rust", 1), ( "rocks", 1) ] ∧
    (collect ⟨[], [], 1⟩
        ⟨FetchOutcome.response 500 (some ⟨[ ⟨some "Rust rocks"⟩ ]⟩), DbFail.healthy, 7⟩).2.snapshots
      = [ ⟨1, "HackerNews", [ ⟨some "Rust rocks"⟩ ]⟩ ] := by
  decide

/-- C4 amended: when the fetch step raises, that is when the request fails at
the network level or the body is not parseable JSON, collect returns the
structured error result and the committed store is unchanged, so no snapshot
row is created. -/
theorem collect_fetch_exception_no_snapshot (st : Store) (dbf : DbFail) (now : Int)
    (status : Nat) :
    collect st ⟨FetchOutcome.netError, dbf, now⟩
      = (CollectResult.error msgConnectionError, st) ∧
    collect st ⟨FetchOutcome.response status none, dbf, now⟩
      = (CollectResult.error msgJsonDecodeError, st) :=
  ⟨rfl, rfl⟩

/-- C5: evaluation of collect at the failing input of the claim.  With zero
surviving words the bulk insert statement of line 63 degenerates to
INSERT INTO word_velocity (word, count, snapshot_id) VALUES with an empty
values section, the database raises a syntax error, and the run ends in an
error result with no committed snapshot, contrary to the claim that the
persistence step still succeeds. -/
theorem collect_zero_words_fails :
    collect ⟨[], [], 1⟩ ⟨FetchOutcome.response 200 (some ⟨[]⟩), DbFail.healthy, 0⟩
      = (CollectResult.error msgEmptyValuesSyntaxError, ⟨[], [], 1⟩) := by
  decide

/-- C6: every run either leaves the store unchanged or appends exactly one
snapshot row whose raw payload holds at most 5 original items, together with
at most 50 word-velocity rows, all referencing that snapshot. -/
theorem collect_row_caps (st : Store) (inp : CollectInput) :
    (collect st inp).2 = st ∨
    ∃ snap rows,
      (collect st inp).2.snapshots = st.snapshots ++ [snap] ∧
      (collect st inp).2.word_velocity = st.word_velocity ++ rows ∧
      rows.length ≤ 50 ∧ snap.raw_data.length ≤ 5 ∧
      rows.all (fun r => r.snapshot_id == snap.id) = true := by
  rcases collect_cases st inp with ⟨m, hm⟩ | ⟨status, data, _, _, hm⟩
  · left
    rw [hm]
  · right
    rw [hm]
    refine ⟨_, _, rfl, rfl, ?_, ?_, ?_⟩
    · rw [List.length_map, List.length_map, mostCommon, List.length_take]
      exact min_le_left _ _
    · exact List.length_take_le 5 _
    · rw [List.all_eq_true]
      intro r hr
      obtain ⟨a, ha, rfl⟩ := List.mem_map.mp hr
      obtain ⟨wc, _, rfl⟩ := List.mem_map.mp ha
      simp

/-- C9: collect is a total function of its environment, so no error escapes to
the caller; it returns either a structured error result with a message,
leaving the store unchanged, or a success result carrying the generated
snapshot identifier together with the top-5 word summary. -/
theorem collect_result_shape (st : Store) (inp : CollectInput) :
    (∃ msg, collect st inp = (CollectResult.error msg, st)) ∨
    (∃ status data, inp.fetch = FetchOutcome.response status (some data) ∧
      (collect st inp).1
        = CollectResult.success st.nextId (mostCommon (filteredWords (hitTitles data.hits)) 5)) := by
  rcases collect_cases st inp with ⟨m, hm⟩ | ⟨status, data, hf, _, hm⟩
  · exact Or.inl ⟨m, hm⟩
  · refine Or.inr ⟨status, data, hf, ?_⟩
    rw [hm]

/-! ### Claim theorems about the trend query -/

/-- C7 counterexample: a record observed exactly at now minus the window.  The
half-open window of the claim contains it, but the SQL of line 86 filters with
a strict greater-than and excludes it, so the query does not aggregate exactly
the records of the claimed interval. -/
theorem topWords_window_boundary_counterexample :
    topWords [ ⟨ "rust", 1, 1, 0⟩ ] 86400 86400 10 = [] ∧
    topWordsSpecHalfOpen [ ⟨ "rust", 1, 1, 0⟩ ] 86400 86400 10 = [ ( "rust", 1) ] := by
  decide

/-- C7 amended: the trend query aggregates exactly the word-velocity records
whose observed timestamp is strictly greater than now minus the window (no
upper bound), groups them by word, sums the counts, sorts descending by
total, and truncates to the limit; the dashboard instantiates it with a
24-hour window and limit 10. -/
theorem topWords_correct (rows : List WordRow) (now window : Int) (limit : Nat) :
    List.Sorted countsGE (topWords rows now window limit) ∧
    (topWords rows now window limit).length = min limit (windowWords rows now window).length ∧
    ((topWords rows now window limit).map Prod.fst).Nodup ∧
    (∀ p, p ∈ topWords rows now window limit →
      p.1 ∈ windowWords rows now window ∧
      p.2 = windowTotal (windowRows rows now window) p.1) ∧
    ∀ st : Store, dashboardQuery st now = topWords st.word_velocity now 86400 10 := by
  refine ⟨?_, ?_, ?_, ?_, fun st => rfl⟩
  · exact sorted_take (sorted_sortByCountDesc _) limit
  · show (List.take limit (sortByCountDesc _)).length = _
    rw [List.length_take, length_sortByCountDesc, List.length_map]
  · have h1 : ((windowWords rows now window).map
        (fun w => (w, windowTotal (windowRows rows now window) w))).map Prod.fst
        = windowWords rows now window := by
      rw [List.map_map]
      exact List.map_id _
    have h2 := List.perm_insertionSort countsGE
      ((windowWords rows now window).map
        (fun w => (w, windowTotal (windowRows rows now window) w)))
    have h3 : ((sortByCountDesc ((windowWords rows now window).map
        (fun w => (w, windowTotal (windowRows rows now window) w)))).map Prod.fst).Nodup := by
      refine ((h2.map Prod.fst).symm).nodup ?_
      rw [h1]
      exact nodup_dedupFirst _
    show ((List.take limit (sortByCountDesc _)).map Prod.fst).Nodup
    rw [List.map_take]
    exact List.Sublist.nodup (List.take_sublist _ _) h3
  · intro p hp
    have hp1 : p ∈ sortByCountDesc ((windowWords rows now window).map
        (fun w => (w, windowTotal (windowRows rows now window) w))) :=
      List.mem_of_mem_take hp
    have hp2 : p ∈ (windowWords rows now window).map
        (fun w => (w, windowTotal (windowRows rows now window) w)) :=
      (List.perm_insertionSort countsGE _).subset hp1
    obtain ⟨w, hw, rfl⟩ := List.mem_map.mp hp2
    exact ⟨hw, rfl⟩

/-- Witness for C7 amended at a concrete store: two in-window rows of distinct
words, one stale row outside the window, one boundary row excluded by the
strict comparison. -/
theorem topWords_correct_witness :
    (( ( "go", 5) ∈ topWords
        [ ⟨ "rust", 2, 1, 2⟩, ⟨ "go", 5, 1, 3⟩, ⟨ "old", 7, 1, 0⟩, ⟨ "edge", 1, 1, 1⟩ ]
        86401 86400 10)) ∧
    ( ( "go", 5).1 ∈ windowWords
        [ ⟨ "rust", 2, 1, 2⟩, ⟨ "go", 5, 1, 3⟩, ⟨ "old", 7, 1, 0⟩, ⟨ "edge", 1, 1, 1⟩ ]
        86401 86400 ∧
      ( ( "go", 5)).2 = windowTotal (windowRows
        [ ⟨ "rust", 2, 1, 2⟩, ⟨ "go", 5, 1, 3⟩, ⟨ "old", 7, 1, 0⟩, ⟨ "edge", 1, 1, 1⟩ ]
        86401 86400) ( ( "go", 5)).1) :=
  ⟨by decide,
    (topWords_correct
      [ ⟨ "rust", 2, 1, 2⟩, ⟨ "go", 5, 1, 3⟩, ⟨ "old", 7, 1, 0⟩, ⟨ "edge", 1, 1, 1⟩ ]
      86401 86400 10).2.2.2.1 ( "go", 5) (by decide)⟩

/-- C8: when no word-velocity record falls inside the window, the trend query
returns the empty list; it is a total function, so it cannot fail, and the
dashboard renders an empty chart. -/
theorem dashboardQuery_empty_window (st : Store) (now : Int)
    (h : windowRows st.word_velocity now 86400 = []) :
    dashboardQuery st now = [] := by
  unfold dashboardQuery topWords windowWords
  rw [h]
  rfl

/-- Witness for C8 at a concrete store holding only one stale record. -/
theorem dashboardQuery_empty_window_witness :
    windowRows (Store.mk [ ⟨1, "HackerNews", []⟩ ] [ ⟨ "old", 3, 1, 0⟩ ] 2).word_velocity
        200000 86400 = [] ∧
    dashboardQuery (Store.mk [ ⟨1, "HackerNews", []⟩ ] [ ⟨ "old", 3, 1, 0⟩ ] 2) 200000 = [] :=
  ⟨by decide,
    dashboardQuery_empty_window (Store.mk [ ⟨1, "HackerNews", []⟩ ] [ ⟨ "old", 3, 1, 0⟩ ] 2)
      200000 (by decide)⟩
